import Mathlib

/-!
Shallow embedding of the LuxuryMotors Webpay checkout backend
(src/index.cjs, improved variant): the in-memory transaction session
store keyed by gateway token, the create-transaction and
confirm-transaction handlers, and the periodic expiry sweep.
JavaScript numbers are modelled as Int (NaN is not modelled); missing
request fields are modelled as Option; the payment gateway and the
email provider are oracles passed as arguments.
-/

namespace LuxuryMotors

/-- customerInfo object from the request body; the handler requires
firstName and email to be truthy. -/
structure CustomerInfo where
  firstName : String
  email : String
  phone : Option String
deriving DecidableEq

/-- item.vehicle: only the (parseInt-ed) price is used by the handler. -/
structure Vehicle where
  price : Int
deriving DecidableEq

/-- A cart line item: a priced vehicle and a quantity. -/
structure CartItem where
  vehicle : Vehicle
  quantity : Int
deriving DecidableEq

/-- The value stored in transactionData[token] by the create handler. -/
structure PendingPurchase where
  customerInfo : CustomerInfo
  cartItems : List CartItem
  subtotal : Int
  discount : Int
  couponCode : Option String
  createdAt : Int
  buyOrder : String
  sessionId : String
deriving DecidableEq

/-- transactionData: a JS object from token to record, modelled as an
association list (keys unique by construction). -/
abbrev Store := List (String × PendingPurchase)

/-- transactionData[token] read. -/
def Store.lookup : Store → String → Option PendingPurchase
  | [], _ => none
  | (k, v) :: rest, t => if k = t then some v else Store.lookup rest t

/-- transactionData[token] = record write (overwrite or append). -/
def Store.set : Store → String → PendingPurchase → Store
  | [], t, r => [(t, r)]
  | (k, v) :: rest, t, r =>
    if k = t then (t, r) :: rest else (k, v) :: Store.set rest t r

/-- delete transactionData[token]. -/
def Store.erase : Store → String → Store
  | [], _ => []
  | (k, v) :: rest, t =>
    if k = t then Store.erase rest t else (k, v) :: Store.erase rest t

/-- The setInterval cleanup body: deletes every record whose createdAt is
strictly before now - ttl, and counts the deletions (for the log line). -/
def sweepExpired (s : Store) (now ttl : Int) : Store × Nat :=
  let kept := s.filter (fun p => !decide (p.2.createdAt < now - ttl))
  (kept, s.length - kept.length)

/-- JS x || fallback on numbers: 0 is falsy (NaN not modelled). -/
def jsOrInt (x : Option Int) (fallback : Int) : Int :=
  match x with
  | some v => if v = 0 then fallback else v
  | none => fallback

/-- JS x || fallback on strings: the empty string is falsy. -/
def jsOrString (x : Option String) (fallback : String) : String :=
  match x with
  | some s => if s = "" then fallback else s
  | none => fallback

/-- A character allowed by each group of the email regex: anything that
is not whitespace and not an at sign. -/
def emailCharOK (c : Char) : Bool := !c.isWhitespace && !(c == '@')

/-- Split a character list at its unique at sign; none when the count of
at signs differs from one. -/
def splitAtSign : List Char → Option (List Char × List Char)
  | [] => none
  | c :: rest =>
    if c == '@' then
      if rest.contains '@' then none else some ([], rest)
    else
      match splitAtSign rest with
      | some (l, r) => some (c :: l, r)
      | none => none

/-- The handler's email check, the anchored regex: one or more
non-space non-at characters, an at sign, one or more such characters, a
dot, one or more such characters (so the domain part needs a dot that is
neither its first nor its last character). -/
def emailValid (s : String) : Bool :=
  match splitAtSign s.toList with
  | none => false
  | some (l, dom) =>
    !l.isEmpty && l.all emailCharOK && !dom.isEmpty && dom.all emailCharOK
      && ((dom.drop 1).dropLast.contains '.')

/-- The create-transaction request body. -/
structure CreateRequest where
  amount : Option Int
  customerInfo : Option CustomerInfo
  cartItems : Option (List CartItem)
  subtotal : Option Int
  discount : Option Int
  couponCode : Option String
deriving DecidableEq

/-- What tx.create resolves to: a token and (perhaps) a redirect url. -/
structure CreateResponse where
  token : String
  url : Option String
deriving DecidableEq

/-- Outcome of the create-transaction handler: a 400 validation
rejection, the 500 catch branch, or the success JSON. -/
inductive BeginOutcome where
  | validationError (msg : String)
  | gatewayUnavailable
  | success (url token buyOrder : String)
deriving DecidableEq

/-- Result of one create-transaction request: outcome, the store
afterwards, and whether tx.create was reached. -/
structure BeginResult where
  outcome : BeginOutcome
  store : Store
  gatewayCreated : Bool
deriving DecidableEq

/-- The early-return validation chain of the create handler, in source
order; none means every guard passed. -/
def validateCreate (req : CreateRequest) : Option String :=
  match req.amount with
  | none => some "Invalid amount"
  | some a =>
    if a ≤ 0 then some "Invalid amount"
    else
      match req.customerInfo with
      | none => some "Customer information is required"
      | some ci =>
        if ci.firstName = "" ∨ ci.email = "" then
          some "Customer information is required"
        else
          match req.cartItems with
          | none => some "Cart items are required"
          | some items =>
            if items.isEmpty then some "Cart items are required"
            else if !emailValid ci.email then some "Invalid email format"
            else
              match req.discount with
              | some d =>
                if d ≠ 0 ∧ a < d then some "Invalid discount" else none
              | none => none

/-- Sum of price times quantity over the cart, the reduce at insertion. -/
def cartSum (items : List CartItem) : Int :=
  items.foldl (fun total item => total + item.vehicle.price * item.quantity) 0

/-- The record the create handler stores under the gateway token. -/
def mkRecord (req : CreateRequest) (now : Int) : PendingPurchase :=
  { customerInfo := req.customerInfo.getD ⟨"", "", none⟩
    cartItems := req.cartItems.getD []
    subtotal := jsOrInt req.subtotal (cartSum (req.cartItems.getD []))
    discount := jsOrInt req.discount 0
    couponCode :=
      match req.couponCode with
      | some c => if c = "" then none else some c
      | none => none
    createdAt := now
    buyOrder := s!"LUX-{now}"
    sessionId := s!"SESSION-{now}" }

/-- The create-transaction handler: validation guards, tx.create, the
store write, then the url check (whose throw lands in the catch after
the record was already stored). -/
def beginPurchase (store : Store) (req : CreateRequest)
    (gw : Except Unit CreateResponse) (now : Int) : BeginResult :=
  match validateCreate req with
  | some msg => ⟨.validationError msg, store, false⟩
  | none =>
    match gw with
    | .error _ => ⟨.gatewayUnavailable, store, true⟩
    | .ok resp =>
      let store2 := Store.set store resp.token (mkRecord req now)
      match resp.url with
      | some u => ⟨.success u resp.token s!"LUX-{now}", store2, true⟩
      | none => ⟨.gatewayUnavailable, store2, true⟩

/-- response.card_detail from tx.commit; card_number itself may be
missing. -/
structure CardDetail where
  card_number : Option String
deriving DecidableEq

/-- What tx.commit resolves to on a successful call. -/
structure CommitResponse where
  status : Option String
  buy_order : Option String
  amount : Option Int
  authorization_code : Option String
  response_code : Option Int
  payment_type_code : Option String
  installments_number : Option Int
  card_detail : Option CardDetail
deriving DecidableEq

/-- The fullResponse JSON built by the confirm handler. -/
structure ConfirmationResult where
  success : Bool
  status : Option String
  orderId : String
  amount : Option Int
  subtotal : Int
  discount : Int
  couponCode : Option String
  cardLast4Digits : String
  customerInfo : CustomerInfo
  cartItems : List CartItem
  transactionDate : Int
  authorizationCode : Option String
  responseCode : Option Int
  paymentType : Option String
  installments : Int
deriving DecidableEq

/-- response.card_detail?.card_number || the fallback string. -/
def cardLast4 (cd : Option CardDetail) : String :=
  match cd with
  | some d => jsOrString d.card_number "N/A"
  | none => "N/A"

/-- Merge the gateway commit response with the stored business data. -/
def mkConfirmResult (stored : PendingPurchase) (resp : CommitResponse)
    (now : Int) : ConfirmationResult :=
  { success := true
    status := resp.status
    orderId := jsOrString resp.buy_order stored.buyOrder
    amount := resp.amount
    subtotal := stored.subtotal
    discount := stored.discount
    couponCode := stored.couponCode
    cardLast4Digits := cardLast4 resp.card_detail
    customerInfo := stored.customerInfo
    cartItems := stored.cartItems
    transactionDate := now
    authorizationCode := resp.authorization_code
    responseCode := resp.response_code
    paymentType := resp.payment_type_code
    installments := jsOrInt resp.installments_number 1 }

/-- Outcome of the confirm-transaction handler: the 400 missing-token
rejection, the 404 not-found branch, the 500 catch branch, or the
success JSON. -/
inductive ConfirmOutcome where
  | tokenRequired
  | unknownToken
  | gatewayError
  | success (r : ConfirmationResult)
deriving DecidableEq

/-- Result of one confirm-transaction request: outcome, the store
afterwards, whether tx.commit was reached, and every email the handler
itself sends (the handler contains no email call; the receipt email is
a separate send-email endpoint driven by the client). -/
structure ConfirmResult where
  outcome : ConfirmOutcome
  store : Store
  committed : Bool
  emailsSent : List String
deriving DecidableEq

/-- The confirm-transaction handler: token presence check, store lookup
(404 when absent), tx.commit (error caught, store untouched), build the
response, delete the record, respond. -/
def confirmPurchase (store : Store) (token : String)
    (gw : Except Unit CommitResponse) (now : Int) : ConfirmResult :=
  if token = "" then ⟨.tokenRequired, store, false, []⟩
  else
    match Store.lookup store token with
    | none => ⟨.unknownToken, store, false, []⟩
    | some stored =>
      match gw with
      | .error _ => ⟨.gatewayError, store, true, []⟩
      | .ok resp =>
        ⟨.success (mkConfirmResult stored resp now),
          Store.erase store token, true, []⟩

/-! Concrete inputs used by the closed example theorems. -/

/-- A valid customer from the request body. -/
def ci0 : CustomerInfo := ⟨"Ana", "a@x.com", none⟩

/-- A single cart line item priced 50000, quantity 1. -/
def item0 : CartItem := ⟨⟨50000⟩, 1⟩

/-- A fully valid create-transaction request with no supplied pricing
fields. -/
def req0 : CreateRequest :=
  { amount := some 50000, customerInfo := some ci0, cartItems := some [item0],
    subtotal := none, discount := none, couponCode := none }

/-- A gateway create response carrying both token and redirect url. -/
def respOk : CreateResponse := ⟨"tok1", some "https://webpay/redirect"⟩

/-- The record req0 produces at time 0. -/
def rec0 : PendingPurchase := mkRecord req0 0

/-- A create request whose discount passes the guard (50000 below the
amount 100000) yet exceeds the supplied subtotal 10000. -/
def req4 : CreateRequest :=
  { amount := some 100000, customerInfo := some ci0, cartItems := some [item0],
    subtotal := some 10000, discount := some 50000, couponCode := none }

/-- A create request whose discount 60000 exceeds the amount 50000. -/
def req7 : CreateRequest :=
  { amount := some 50000, customerInfo := some ci0, cartItems := some [item0],
    subtotal := none, discount := some 60000, couponCode := none }

/-- A create request supplying subtotal 0 over a cart summing to 500. -/
def req8 : CreateRequest :=
  { amount := some 50000, customerInfo := some ci0,
    cartItems := some [⟨⟨500⟩, 1⟩], subtotal := some 0,
    discount := none, couponCode := none }

/-- A successful gateway commit response with card data present. -/
def commit0 : CommitResponse :=
  { status := some "AUTHORIZED", buy_order := some "LUX-0",
    amount := some 50000, authorization_code := some "1213",
    response_code := some 0, payment_type_code := some "VN",
    installments_number := some 0, card_detail := some ⟨some "6623"⟩ }

/-- A successful gateway commit response with no card_detail at all. -/
def commitNoCard : CommitResponse := { commit0 with card_detail := none }

/-! Store lemmas. -/

/-- Writing a record under a token makes it the lookup result. -/
theorem Store.lookup_set_self (s : Store) (t : String) (r : PendingPurchase) :
    Store.lookup (Store.set s t r) t = some r := by
  induction s with
  | nil => simp [Store.set, Store.lookup]
  | cons p rest ih =>
    obtain ⟨k, v⟩ := p
    by_cases h : k = t
    · simp [Store.set, Store.lookup, h]
    · simp [Store.set, Store.lookup, h, ih]

/-- Deleting a token makes its lookup come back empty. -/
theorem Store.lookup_erase_self (s : Store) (t : String) :
    Store.lookup (Store.erase s t) t = none := by
  induction s with
  | nil => rfl
  | cons p rest ih =>
    obtain ⟨k, v⟩ := p
    by_cases h : k = t
    · simp [Store.erase, h, ih]
    · simp [Store.erase, Store.lookup, h, ih]

/-- A token absent from the key list looks up to none. -/
theorem Store.lookup_eq_none_of_not_mem (s : Store) (t : String)
    (h : t ∉ s.map Prod.fst) : Store.lookup s t = none := by
  induction s with
  | nil => rfl
  | cons p rest ih =>
    obtain ⟨k, v⟩ := p
    simp only [List.map_cons, List.mem_cons] at h
    push_neg at h
    rw [Store.lookup, if_neg (fun hk => h.1 hk.symm)]
    exact ih h.2

/-- Filtering cannot make an absent token present. -/
theorem Store.lookup_filter_none (s : Store) (t : String)
    (p : String × PendingPurchase → Bool)
    (h : Store.lookup s t = none) : Store.lookup (s.filter p) t = none := by
  induction s with
  | nil => rfl
  | cons hd rest ih =>
    obtain ⟨k, v⟩ := hd
    rw [Store.lookup] at h
    by_cases hk : k = t
    · rw [if_pos hk] at h; cases h
    · rw [if_neg hk] at h
      rw [List.filter_cons]
      by_cases hp : p (k, v)
      · simp only [hp, if_true]
        rw [Store.lookup, if_neg hk]
        exact ih h
      · simp only [hp]
        simp only [Bool.false_eq_true, if_false]
        exact ih h

/-- On a store with unique keys, lookup commutes with filter. -/
theorem Store.lookup_filter (s : Store) (t : String)
    (p : String × PendingPurchase → Bool) (r : PendingPurchase)
    (hnd : (s.map Prod.fst).Nodup) (h : Store.lookup s t = some r) :
    Store.lookup (s.filter p) t = if p (t, r) then some r else none := by
  induction s with
  | nil => cases h
  | cons hd rest ih =>
    obtain ⟨k, v⟩ := hd
    simp only [List.map_cons, List.nodup_cons] at hnd
    rw [Store.lookup] at h
    by_cases hk : k = t
    · subst hk
      rw [if_pos rfl] at h
      injection h with h
      subst h
      rw [List.filter_cons]
      by_cases hp : p (k, v)
      · simp only [hp, if_true]
        rw [Store.lookup, if_pos rfl]
      · simp only [hp]
        simp only [Bool.false_eq_true, if_false]
        exact Store.lookup_filter_none rest k p
          (Store.lookup_eq_none_of_not_mem rest k hnd.1)
    · rw [if_neg hk] at h
      rw [List.filter_cons]
      by_cases hp : p (k, v)
      · simp only [hp, if_true]
        rw [Store.lookup, if_neg hk]
        exact ih hnd.2 h
      · simp only [hp]
        simp only [Bool.false_eq_true, if_false]
        exact ih hnd.2 h

/-- Everything the validation chain guarantees when every guard passes. -/
theorem validateCreate_facts (req : CreateRequest)
    (h : validateCreate req = none) :
    ∃ a ci items, req.amount = some a ∧ 0 < a ∧
      req.customerInfo = some ci ∧ ci.firstName ≠ "" ∧ ci.email ≠ "" ∧
      req.cartItems = some items ∧ items ≠ [] ∧
      ∀ d, req.discount = some d → d = 0 ∨ d ≤ a := by
  unfold validateCreate at h
  split at h
  · simp at h
  next a ha =>
    split at h
    · simp at h
    next hpos =>
      split at h
      · simp at h
      next ci hc =>
        split at h
        · simp at h
        next hce =>
          split at h
          · simp at h
          next items hi =>
            split at h
            · simp at h
            next hie =>
              split at h
              · simp at h
              next hev =>
                push_neg at hce
                refine ⟨a, ci, items, ha, by omega, hc, hce.1, hce.2, hi,
                  by simpa using hie, ?_⟩
                intro d hd
                rw [hd] at h
                simp only [] at h
                by_cases hguard : d ≠ 0 ∧ a < d
                · rw [if_pos hguard] at h; simp at h
                · push_neg at hguard
                  by_cases h0 : d = 0
                  · exact Or.inl h0
                  · exact Or.inr (by have := hguard h0; omega)

/-! Claim theorems. -/

/-- C1: for every token whose PendingPurchase record is in the store, a
confirmPurchase on which the gateway commit succeeds returns the merged
result and removes the record (whatever authorization status the commit
reports), and any later confirmPurchase with the same token yields the
not-found outcome unknownToken rather than a replay. -/
theorem confirm_success_consumes (store : Store) (token : String)
    (r : PendingPurchase) (resp : CommitResponse)
    (gw2 : Except Unit CommitResponse) (now now2 : Int)
    (ht : token ≠ "") (h : Store.lookup store token = some r) :
    (confirmPurchase store token (.ok resp) now).outcome
        = .success (mkConfirmResult r resp now) ∧
    Store.lookup (confirmPurchase store token (.ok resp) now).store token
        = none ∧
    (confirmPurchase (confirmPurchase store token (.ok resp) now).store
        token gw2 now2).outcome = .unknownToken := by
  have h1 : confirmPurchase store token (.ok resp) now
      = ⟨.success (mkConfirmResult r resp now), Store.erase store token,
          true, []⟩ := by
    simp [confirmPurchase, ht, h]
  rw [h1]
  refine ⟨rfl, Store.lookup_erase_self store token, ?_⟩
  simp [confirmPurchase, ht, Store.lookup_erase_self]

/-- Witness for C1 at a concrete store, token and commit response. -/
theorem confirm_success_consumes_witness :
    ("tok1" : String) ≠ "" ∧
    Store.lookup [("tok1", rec0)] "tok1" = some rec0 ∧
    ((confirmPurchase [("tok1", rec0)] "tok1" (.ok commit0) 7).outcome
        = .success (mkConfirmResult rec0 commit0 7) ∧
      Store.lookup
        (confirmPurchase [("tok1", rec0)] "tok1" (.ok commit0) 7).store
        "tok1" = none ∧
      (confirmPurchase
        (confirmPurchase [("tok1", rec0)] "tok1" (.ok commit0) 7).store
        "tok1" (.ok commit0) 8).outcome = .unknownToken) :=
  ⟨by decide, by decide,
    confirm_success_consumes [("tok1", rec0)] "tok1" rec0 commit0
      (.ok commit0) 7 8 (by decide) (by decide)⟩

/-- C2: when the gateway commit call errors, the record is not deleted
and the store is unchanged, so a later confirmPurchase with the same
token is still accepted and succeeds once the commit succeeds. -/
theorem commit_error_preserves_record (store : Store) (token : String)
    (r : PendingPurchase) (resp : CommitResponse) (now now2 : Int)
    (ht : token ≠ "") (h : Store.lookup store token = some r) :
    confirmPurchase store token (.error ()) now
        = ⟨.gatewayError, store, true, []⟩ ∧
    (confirmPurchase (confirmPurchase store token (.error ()) now).store
        token (.ok resp) now2).outcome
        = .success (mkConfirmResult r resp now2) := by
  have h1 : confirmPurchase store token (.error ()) now
      = ⟨.gatewayError, store, true, []⟩ := by
    simp [confirmPurchase, ht, h]
  exact ⟨h1, by rw [h1]; simp [confirmPurchase, ht, h]⟩

/-- Witness for C2 at a concrete store, token and commit response. -/
theorem commit_error_preserves_record_witness :
    ("tok1" : String) ≠ "" ∧
    Store.lookup [("tok1", rec0)] "tok1" = some rec0 ∧
    (confirmPurchase [("tok1", rec0)] "tok1" (.error ()) 7
        = ⟨.gatewayError, [("tok1", rec0)], true, []⟩ ∧
      (confirmPurchase
        (confirmPurchase [("tok1", rec0)] "tok1" (.error ()) 7).store
        "tok1" (.ok commit0) 8).outcome
        = .success (mkConfirmResult rec0 commit0 8)) :=
  ⟨by decide, by decide,
    commit_error_preserves_record [("tok1", rec0)] "tok1" rec0 commit0 7 8
      (by decide) (by decide)⟩

/-- C5: for every token with no record in the store, confirmPurchase
returns the not-found outcome unknownToken, reaches no gateway commit,
and leaves the store exactly as it was. -/
theorem unknown_token_rejected (store : Store) (token : String)
    (gw : Except Unit CommitResponse) (now : Int)
    (ht : token ≠ "") (h : Store.lookup store token = none) :
    confirmPurchase store token gw now
        = ⟨.unknownToken, store, false, []⟩ := by
  simp [confirmPurchase, ht, h]

/-- Witness for C5 at a concrete unknown token over a nonempty store. -/
theorem unknown_token_rejected_witness :
    ("tokZ" : String) ≠ "" ∧
    Store.lookup [("tok1", rec0)] "tokZ" = none ∧
    confirmPurchase [("tok1", rec0)] "tokZ" (.ok commit0) 7
        = ⟨.unknownToken, [("tok1", rec0)], false, []⟩ :=
  ⟨by decide, by decide,
    unknown_token_rejected [("tok1", rec0)] "tokZ" (.ok commit0) 7
      (by decide) (by decide)⟩

/-- C9 counterexample: a concrete confirmPurchase whose gateway commit
succeeds produces the success outcome while sending no email at all, so
the confirmation itself never triggers a receipt email. -/
theorem confirm_triggers_no_email_example :
    (confirmPurchase [("tok1", rec0)] "tok1" (.ok commit0) 5).outcome
        = .success (mkConfirmResult rec0 commit0 5) ∧
    (confirmPurchase [("tok1", rec0)] "tok1" (.ok commit0) 5).emailsSent
        = [] := by
  constructor <;> decide

/-- C9 amended: the confirm-transaction handler sends no email on any
path (the receipt email is the client-driven send-email endpoint), so no
email-send failure can ever surface as a confirmation failure. -/
theorem confirm_sends_no_email (store : Store) (token : String)
    (gw : Except Unit CommitResponse) (now : Int) :
    (confirmPurchase store token gw now).emailsSent = [] := by
  by_cases ht : token = ""
  · simp [confirmPurchase, ht]
  · cases hl : Store.lookup store token with
    | none => simp [confirmPurchase, ht, hl]
    | some r =>
      cases gw with
      | error e => simp [confirmPurchase, ht, hl]
      | ok resp => simp [confirmPurchase, ht, hl]

/-- C10: when the commit succeeds but its response carries no
card_detail, or a card_detail without card_number, the confirmation
still succeeds and reports the string N/A as cardLast4Digits. -/
theorem missing_card_detail_is_na (store : Store) (token : String)
    (r : PendingPurchase) (resp : CommitResponse) (now : Int)
    (ht : token ≠ "") (h : Store.lookup store token = some r)
    (hcard : resp.card_detail = none ∨
      ∃ cd, resp.card_detail = some cd ∧ cd.card_number = none) :
    ∃ res, (confirmPurchase store token (.ok resp) now).outcome
        = .success res ∧ res.cardLast4Digits = "N/A" := by
  refine ⟨mkConfirmResult r resp now, by simp [confirmPurchase, ht, h], ?_⟩
  rcases hcard with hc | ⟨cd, hc, hn⟩
  · simp [mkConfirmResult, cardLast4, jsOrString, hc]
  · simp [mkConfirmResult, cardLast4, jsOrString, hc, hn]

/-- Witness for C10 at a concrete commit response without card_detail. -/
theorem missing_card_detail_is_na_witness :
    ("tok1" : String) ≠ "" ∧
    Store.lookup [("tok1", rec0)] "tok1" = some rec0 ∧
    (commitNoCard.card_detail = none ∨
      ∃ cd, commitNoCard.card_detail = some cd ∧ cd.card_number = none) ∧
    ∃ res, (confirmPurchase [("tok1", rec0)] "tok1" (.ok commitNoCard) 7).outcome
        = .success res ∧ res.cardLast4Digits = "N/A" :=
  ⟨by decide, by decide, Or.inl (by decide),
    missing_card_detail_is_na [("tok1", rec0)] "tok1" rec0 commitNoCard 7
      (by decide) (by decide) (Or.inl (by decide))⟩

/-- C3 counterexample: on a concrete valid request, a gateway create
that returns a token but no redirect url makes beginPurchase fail as
gatewayUnavailable while still inserting the PendingPurchase under that
token, so the store is not as it was before the call. -/
theorem begin_no_url_inserts_record :
    (beginPurchase [] req0 (.ok ⟨"tok3", none⟩) 0).outcome
        = .gatewayUnavailable ∧
    Store.lookup (beginPurchase [] req0 (.ok ⟨"tok3", none⟩) 0).store "tok3"
        = some (mkRecord req0 0) ∧
    (beginPurchase [] req0 (.ok ⟨"tok3", none⟩) 0).store ≠ ([] : Store) := by
  refine ⟨?_, ?_, ?_⟩ <;> decide

/-- C3 amended: when the gateway create call errors, beginPurchase fails
as gatewayUnavailable with the store untouched; but when create succeeds
without a redirect url, the failure happens after the insertion, so the
record keyed by the returned token remains in the store. -/
theorem begin_gateway_failure (store : Store) (req : CreateRequest)
    (now : Int) (tok : String) (hv : validateCreate req = none) :
    (beginPurchase store req (.error ()) now
        = ⟨.gatewayUnavailable, store, true⟩) ∧
    (beginPurchase store req (.ok ⟨tok, none⟩) now
        = ⟨.gatewayUnavailable, Store.set store tok (mkRecord req now),
            true⟩) := by
  constructor <;> simp [beginPurchase, hv]

/-- Witness for the amended C3 at a concrete valid request. -/
theorem begin_gateway_failure_witness :
    validateCreate req0 = none ∧
    (beginPurchase [] req0 (.error ()) 0
        = ⟨.gatewayUnavailable, [], true⟩ ∧
      beginPurchase [] req0 (.ok ⟨"tokX", none⟩) 0
        = ⟨.gatewayUnavailable, Store.set [] "tokX" (mkRecord req0 0),
            true⟩) :=
  ⟨by decide, begin_gateway_failure [] req0 0 "tokX" (by decide)⟩

/-- C4 counterexample: the request req4 (amount 100000, discount 50000,
supplied subtotal 10000) passes every guard, and the record stored under
the gateway token has its subtotal strictly below its discount. -/
theorem discount_gt_subtotal_accepted :
    (beginPurchase [] req4 (.ok respOk) 0).outcome
        = .success "https://webpay/redirect" "tok1" "LUX-0" ∧
    ∃ r, Store.lookup (beginPurchase [] req4 (.ok respOk) 0).store "tok1"
        = some r ∧ r.subtotal < r.discount :=
  ⟨by decide, ⟨mkRecord req4 0, by decide, by decide⟩⟩

/-- C4 amended: the creation guard compares the discount against the
request amount, not the stored subtotal: every record inserted by an
accepted beginPurchase satisfies discount at most amount, while discount
at most subtotal need not hold. -/
theorem begin_discount_le_amount (store : Store) (req : CreateRequest)
    (resp : CreateResponse) (now : Int)
    (h : (beginPurchase store req (.ok resp) now).gatewayCreated = true) :
    ∃ a r, req.amount = some a ∧
      Store.lookup (beginPurchase store req (.ok resp) now).store resp.token
        = some r ∧ r.discount ≤ a := by
  cases hv : validateCreate req with
  | some msg => simp [beginPurchase, hv] at h
  | none =>
    obtain ⟨a, ci, items, ha, hpos, -, -, -, -, -, hd⟩ :=
      validateCreate_facts req hv
    refine ⟨a, mkRecord req now, ha, ?_, ?_⟩
    · cases hu : resp.url with
      | some u => simp [beginPurchase, hv, hu, Store.lookup_set_self]
      | none => simp [beginPurchase, hv, hu, Store.lookup_set_self]
    · show jsOrInt req.discount 0 ≤ a
      cases hdq : req.discount with
      | none => simp [jsOrInt]; omega
      | some d =>
        rcases hd d hdq with h0 | hle
        · simp [jsOrInt, h0]; omega
        · by_cases h0 : d = 0
          · simp [jsOrInt, h0]; omega
          · simp [jsOrInt, h0]; omega

/-- Witness for the amended C4 at a concrete accepted request. -/
theorem begin_discount_le_amount_witness :
    (beginPurchase [] req4 (.ok respOk) 0).gatewayCreated = true ∧
    ∃ a r, req4.amount = some a ∧
      Store.lookup (beginPurchase [] req4 (.ok respOk) 0).store respOk.token
        = some r ∧ r.discount ≤ a :=
  ⟨by decide, begin_discount_le_amount [] req4 respOk 0 (by decide)⟩

/-- C7: every request violating a business-rule guard (amount missing or
not positive, customer info missing its required firstName or email,
cart missing or empty, or discount above the amount) is rejected as a
validationError with the store unchanged and the gateway create never
reached. -/
theorem validation_rejects_before_gateway (store : Store)
    (req : CreateRequest) (gw : Except Unit CreateResponse) (now : Int)
    (hviol :
      (req.amount = none ∨ ∃ a, req.amount = some a ∧ a ≤ 0) ∨
      (req.customerInfo = none ∨
        ∃ ci, req.customerInfo = some ci ∧
          (ci.firstName = "" ∨ ci.email = "")) ∨
      (req.cartItems = none ∨ req.cartItems = some []) ∨
      (∃ d a, req.discount = some d ∧ req.amount = some a ∧ a < d)) :
    ∃ msg, beginPurchase store req gw now
        = ⟨.validationError msg, store, false⟩ := by
  have hv : validateCreate req ≠ none := by
    intro hnone
    obtain ⟨a, ci, items, ha, hpos, hc, hf, he, hi, hne, hd⟩ :=
      validateCreate_facts req hnone
    rcases hviol with h1 | h2 | h3 | h4
    · rcases h1 with h1 | ⟨a2, ha2, hle⟩
      · rw [h1] at ha; cases ha
      · rw [ha2] at ha
        injection ha with ha
        omega
    · rcases h2 with h2 | ⟨ci2, hc2, hbad⟩
      · rw [h2] at hc; cases hc
      · rw [hc2] at hc
        injection hc with hc
        subst hc
        rcases hbad with hbad | hbad
        · exact hf hbad
        · exact he hbad
    · rcases h3 with h3 | h3
      · rw [h3] at hi; cases hi
      · rw [h3] at hi
        injection hi with hi
        exact hne hi.symm
    · obtain ⟨d, a2, hd2, ha2, hlt⟩ := h4
      rw [ha2] at ha
      injection ha with ha
      subst ha
      rcases hd d hd2 with h0 | hle <;> omega
  cases hm : validateCreate req with
  | none => exact absurd hm hv
  | some msg => exact ⟨msg, by simp [beginPurchase, hm]⟩

/-- Witness for C7: discount 60000 on amount 50000 is rejected before
the gateway with the store unchanged. -/
theorem validation_rejects_before_gateway_witness :
    ∃ msg, beginPurchase [] req7 (.ok respOk) 0
        = ⟨.validationError msg, [], false⟩ :=
  validation_rejects_before_gateway [] req7 (.ok respOk) 0
    (Or.inr (Or.inr (Or.inr ⟨60000, 50000, rfl, rfl, by decide⟩)))

/-- C8 counterexample: supplying subtotal 0 on a cart summing to 500 is
accepted, and the stored subtotal is the recomputed 500, not the
supplied 0, because the falsy-or fallback treats 0 as absent. -/
theorem supplied_zero_subtotal_recomputed :
    req8.subtotal = some 0 ∧
    (beginPurchase [] req8 (.ok respOk) 0).outcome
        = .success "https://webpay/redirect" "tok1" "LUX-0" ∧
    ∃ r, Store.lookup (beginPurchase [] req8 (.ok respOk) 0).store "tok1"
        = some r ∧ r.subtotal = 500 ∧ r.subtotal ≠ 0 :=
  ⟨rfl, by decide, ⟨mkRecord req8 0, by decide, by decide, by decide⟩⟩

/-- C8 amended: the record inserted by an accepted beginPurchase stores
the supplied subtotal when it is nonzero, and the sum of price times
quantity over the cart when the subtotal is absent or zero. -/
theorem begin_subtotal_rule (store : Store) (req : CreateRequest)
    (resp : CreateResponse) (now : Int)
    (h : (beginPurchase store req (.ok resp) now).gatewayCreated = true) :
    ∃ items r, req.cartItems = some items ∧
      Store.lookup (beginPurchase store req (.ok resp) now).store resp.token
        = some r ∧
      (∀ v, req.subtotal = some v → v ≠ 0 → r.subtotal = v) ∧
      ((req.subtotal = none ∨ req.subtotal = some 0) →
        r.subtotal = cartSum items) := by
  cases hv : validateCreate req with
  | some msg => simp [beginPurchase, hv] at h
  | none =>
    obtain ⟨a, ci, items, ha, hpos, hc, -, -, hi, -, -⟩ :=
      validateCreate_facts req hv
    refine ⟨items, mkRecord req now, hi, ?_, ?_, ?_⟩
    · cases hu : resp.url with
      | some u => simp [beginPurchase, hv, hu, Store.lookup_set_self]
      | none => simp [beginPurchase, hv, hu, Store.lookup_set_self]
    · intro v hvs hvne
      show jsOrInt req.subtotal (cartSum (req.cartItems.getD [])) = v
      simp [jsOrInt, hvs, hvne]
    · intro hz
      show jsOrInt req.subtotal (cartSum (req.cartItems.getD []))
          = cartSum items
      rcases hz with hz | hz <;> simp [jsOrInt, hz, hi]

/-- Witness for the amended C8 at a concrete accepted request with no
supplied subtotal. -/
theorem begin_subtotal_rule_witness :
    (beginPurchase [] req0 (.ok respOk) 0).gatewayCreated = true ∧
    ∃ items r, req0.cartItems = some items ∧
      Store.lookup (beginPurchase [] req0 (.ok respOk) 0).store respOk.token
        = some r ∧
      (∀ v, req0.subtotal = some v → v ≠ 0 → r.subtotal = v) ∧
      ((req0.subtotal = none ∨ req0.subtotal = some 0) →
        r.subtotal = cartSum items) :=
  ⟨by decide, begin_subtotal_rule [] req0 respOk 0 (by decide)⟩

/-- C6 counterexample: a record of age exactly ttl (createdAt 0, now and
ttl both 1800000) is kept by the sweep, although now minus createdAt is
at least ttl, so the sweep condition is strict, not at-least. -/
theorem sweep_boundary_kept :
    (1800000 : Int) - rec0.createdAt ≥ 1800000 ∧
    Store.lookup (sweepExpired [("tokS", rec0)] 1800000 1800000).1 "tokS"
        = some rec0 := by
  constructor <;> decide

/-- C6 amended: on a store with unique keys, sweepExpired deletes a
record exactly when now minus its createdAt strictly exceeds ttl; a
record of age exactly ttl or less is kept. -/
theorem sweepExpired_strict (s : Store) (now ttl : Int) (t : String)
    (r : PendingPurchase) (hnd : (s.map Prod.fst).Nodup)
    (h : Store.lookup s t = some r) :
    Store.lookup (sweepExpired s now ttl).1 t
      = if r.createdAt < now - ttl then none else some r := by
  have hf := Store.lookup_filter s t
    (fun p => !decide (p.2.createdAt < now - ttl)) r hnd h
  rw [sweepExpired]
  simp only []
  rw [hf]
  by_cases hexp : r.createdAt < now - ttl
  · simp [hexp]
  · simp [hexp]

/-- Witness for the amended C6: a record one millisecond past its ttl is
deleted by the sweep. -/
theorem sweepExpired_strict_witness :
    ([("tokS", rec0)].map Prod.fst).Nodup ∧
    Store.lookup [("tokS", rec0)] "tokS" = some rec0 ∧
    Store.lookup (sweepExpired [("tokS", rec0)] 1800001 1800000).1 "tokS"
      = if rec0.createdAt < (1800001 : Int) - 1800000 then none
        else some rec0 :=
  ⟨by decide, by decide,
    sweepExpired_strict [("tokS", rec0)] 1800001 1800000 "tokS" rec0
      (by decide) (by decide)⟩

end LuxuryMotors
